import Mathlib

/-!
# G1 command-line flag constraints

A shallow embedding of `src/hotspot/share/gc/g1/commandLineFlagConstraintsG1.cpp`
and the properties of its eight constraint functions.

Conventions of the embedding.

* `intx` candidates are `Int`, `uintx` and `size_t` candidates are `Nat`.  The
  machine values are the sub-ranges of these types that fit the word; every
  comparison of the source is between two values of one machine type, so it is
  the mathematical comparison.  The only arithmetic of the file, the threshold
  `max_juint * 1 * M`, is embedded with its explicit wrap-around.
* The process-wide flags the functions read are the fields of `Globals`; the
  error stream the diagnostics are written to is the second component of `VM`.
  A constraint function maps a `VM` to a verdict and the `VM` after the call.
* `#ifdef _LP64` is the Boolean parameter `LP64` of `NewSizeConstraintFuncG1`.
-/

namespace G1

/-! ## Collaborators that are declared outside the embedded file -/

/-- Verdict of a constraint function.  Only the two values the embedded file
returns are listed. -/
inductive Flag.Error where
  | SUCCESS
  | VIOLATES_CONSTRAINT
  deriving DecidableEq

/-- Modelled from the spec: the origin record of a flag, which
`runtime/globals_extension.hpp` (not among the sources) reads through
`FLAG_IS_DEFAULT` and `FLAG_IS_CMDLINE`.  The spec calls it the origin flag:
"whether the candidate value was supplied explicitly on the command line versus
left at its implicit default".  The two answers are kept as two independent
bits, so that nothing is assumed about how the two macros relate. -/
structure Flag.Flags where
  is_default : Bool
  is_command_line : Bool
  deriving DecidableEq

/-- A flag of the process-wide configuration: its current value and its origin. -/
structure Flag (α : Type) where
  value : α
  origin : Flag.Flags
  deriving DecidableEq

/-- Modelled from the spec: `FLAG_IS_DEFAULT(name)` of
`runtime/globals_extension.hpp`, "left at its implicit default". -/
def FLAG_IS_DEFAULT {α : Type} (f : Flag α) : Bool :=
  f.origin.is_default

/-- Modelled from the spec: `FLAG_IS_CMDLINE(name)` of
`runtime/globals_extension.hpp`, "supplied explicitly on the command line". -/
def FLAG_IS_CMDLINE {α : Type} (f : Flag α) : Bool :=
  f.origin.is_command_line

/-- Modelled from the spec: the region-size bounds of
`gc/g1/heapRegionBounds.inline.hpp`, "a minimum/maximum region size constant
supplied by the region-sizing subsystem".  They are parameters of the
development. -/
structure HeapRegionBounds where
  min_size : Nat
  max_size : Nat
  deriving DecidableEq

/-- The process-wide configuration state read by the constraint functions. -/
structure Globals where
  UseG1GC : Bool
  G1RSetRegionEntries : Flag Int
  G1RSetSparseRegionEntries : Flag Int
  G1HeapRegionSize : Flag Nat
  G1NewSizePercent : Flag Nat
  G1MaxNewSizePercent : Flag Nat
  MaxGCPauseMillis : Flag Nat
  GCPauseIntervalMillis : Flag Nat
  NewSize : Flag Nat
  bounds : HeapRegionBounds
  deriving DecidableEq

/-- The state a constraint function runs in: the configuration and the lines
written so far to the error stream. -/
structure VM where
  globals : Globals
  error_stream : List String
  deriving DecidableEq

/-- Modelled from the spec: `CommandLineError::print` of
`runtime/commandLineFlagRangeList.hpp`: "when rejected and `verbose` is true, a
human-readable diagnostic is emitted to the error channel".  The formatted
message is appended to the error stream when `verbose` holds and nothing
happens otherwise. -/
def CommandLineError.print (verbose : Bool) (msg : String) (vm : VM) : VM :=
  if verbose then { vm with error_stream := vm.error_stream ++ [msg] } else vm

/-- Modelled from the spec: `max_juint` of `utilities/globalDefinitions.hpp`,
the "max-32-bit-unsigned-value". -/
def max_juint : Nat := 4294967295

/-- Modelled from the spec: `M` of `utilities/globalDefinitions.hpp`, "1 MiB",
a `size_t` constant. -/
def M : Nat := 1024 * 1024

/-- Product of two `juint` operands (32-bit unsigned, wraps). -/
def juint_mul (a b : Nat) : Nat := (a * b) % 2 ^ 32

/-- Product of two `size_t` operands on an `_LP64` build (64-bit unsigned, wraps). -/
def size_t_mul (a b : Nat) : Nat := (a * b) % 2 ^ 64

/-! ## The constraint functions -/

/-- Embeds `Flag::Error G1RSetRegionEntriesConstraintFunc(intx value, bool verbose)`. -/
def G1RSetRegionEntriesConstraintFunc (value : Int) (verbose : Bool) (vm : VM) :
    Flag.Error × VM :=
  if !vm.globals.UseG1GC then (Flag.Error.SUCCESS, vm)
  else if FLAG_IS_CMDLINE vm.globals.G1RSetRegionEntries && decide (value < 1) then
    (Flag.Error.VIOLATES_CONSTRAINT,
      CommandLineError.print verbose
        ("G1RSetRegionEntries (" ++ toString value ++ ") must be " ++
          "greater than or equal to 1\n") vm)
  else (Flag.Error.SUCCESS, vm)

/-- Embeds `Flag::Error G1RSetSparseRegionEntriesConstraintFunc(intx value, bool verbose)`. -/
def G1RSetSparseRegionEntriesConstraintFunc (value : Int) (verbose : Bool) (vm : VM) :
    Flag.Error × VM :=
  if !vm.globals.UseG1GC then (Flag.Error.SUCCESS, vm)
  else if FLAG_IS_CMDLINE vm.globals.G1RSetSparseRegionEntries && decide (value < 1) then
    (Flag.Error.VIOLATES_CONSTRAINT,
      CommandLineError.print verbose
        ("G1RSetSparseRegionEntries (" ++ toString value ++ ") must be " ++
          "greater than or equal to 1\n") vm)
  else (Flag.Error.SUCCESS, vm)

/-- Embeds `Flag::Error G1HeapRegionSizeConstraintFunc(size_t value, bool verbose)`. -/
def G1HeapRegionSizeConstraintFunc (value : Nat) (verbose : Bool) (vm : VM) :
    Flag.Error × VM :=
  if !vm.globals.UseG1GC then (Flag.Error.SUCCESS, vm)
  else if FLAG_IS_CMDLINE vm.globals.G1HeapRegionSize &&
      decide (value < vm.globals.bounds.min_size) then
    (Flag.Error.VIOLATES_CONSTRAINT,
      CommandLineError.print verbose
        ("G1HeapRegionSize (" ++ toString value ++ ") must be " ++
          "greater than or equal to ergonomic heap region minimum size\n") vm)
  else (Flag.Error.SUCCESS, vm)

/-- Embeds `Flag::Error G1NewSizePercentConstraintFunc(uintx value, bool verbose)`. -/
def G1NewSizePercentConstraintFunc (value : Nat) (verbose : Bool) (vm : VM) :
    Flag.Error × VM :=
  if !vm.globals.UseG1GC then (Flag.Error.SUCCESS, vm)
  else if value > vm.globals.G1MaxNewSizePercent.value then
    (Flag.Error.VIOLATES_CONSTRAINT,
      CommandLineError.print verbose
        ("G1NewSizePercent (" ++ toString value ++ ") must be " ++
          "less than or equal to G1MaxNewSizePercent (" ++
          toString vm.globals.G1MaxNewSizePercent.value ++ ")\n") vm)
  else (Flag.Error.SUCCESS, vm)

/-- Embeds `Flag::Error G1MaxNewSizePercentConstraintFunc(uintx value, bool verbose)`. -/
def G1MaxNewSizePercentConstraintFunc (value : Nat) (verbose : Bool) (vm : VM) :
    Flag.Error × VM :=
  if !vm.globals.UseG1GC then (Flag.Error.SUCCESS, vm)
  else if value < vm.globals.G1NewSizePercent.value then
    (Flag.Error.VIOLATES_CONSTRAINT,
      CommandLineError.print verbose
        ("G1MaxNewSizePercent (" ++ toString value ++ ") must be " ++
          "greater than or equal to G1NewSizePercent (" ++
          toString vm.globals.G1NewSizePercent.value ++ ")\n") vm)
  else (Flag.Error.SUCCESS, vm)

/-- Embeds `Flag::Error MaxGCPauseMillisConstraintFuncG1(uintx value, bool verbose)`. -/
def MaxGCPauseMillisConstraintFuncG1 (value : Nat) (verbose : Bool) (vm : VM) :
    Flag.Error × VM :=
  if vm.globals.UseG1GC && FLAG_IS_CMDLINE vm.globals.MaxGCPauseMillis &&
      decide (value ≥ vm.globals.GCPauseIntervalMillis.value) then
    (Flag.Error.VIOLATES_CONSTRAINT,
      CommandLineError.print verbose
        ("MaxGCPauseMillis (" ++ toString value ++ ") must be " ++
          "less than GCPauseIntervalMillis (" ++
          toString vm.globals.GCPauseIntervalMillis.value ++ ")\n") vm)
  else (Flag.Error.SUCCESS, vm)

/-- Embeds `Flag::Error GCPauseIntervalMillisConstraintFuncG1(uintx value, bool verbose)`. -/
def GCPauseIntervalMillisConstraintFuncG1 (value : Nat) (verbose : Bool) (vm : VM) :
    Flag.Error × VM :=
  if vm.globals.UseG1GC then
    if FLAG_IS_CMDLINE vm.globals.GCPauseIntervalMillis then
      if value < 1 then
        (Flag.Error.VIOLATES_CONSTRAINT,
          CommandLineError.print verbose
            ("GCPauseIntervalMillis (" ++ toString value ++ ") must be " ++
              "greater than or equal to 1\n") vm)
      else if FLAG_IS_DEFAULT vm.globals.MaxGCPauseMillis then
        (Flag.Error.VIOLATES_CONSTRAINT,
          CommandLineError.print verbose
            ("GCPauseIntervalMillis cannot be set " ++
              "without setting MaxGCPauseMillis\n") vm)
      else if value ≤ vm.globals.MaxGCPauseMillis.value then
        (Flag.Error.VIOLATES_CONSTRAINT,
          CommandLineError.print verbose
            ("GCPauseIntervalMillis (" ++ toString value ++ ") must be " ++
              "greater than MaxGCPauseMillis (" ++
              toString vm.globals.MaxGCPauseMillis.value ++ ")\n") vm)
      else (Flag.Error.SUCCESS, vm)
    else (Flag.Error.SUCCESS, vm)
  else (Flag.Error.SUCCESS, vm)

/-- Embeds `Flag::Error NewSizeConstraintFuncG1(size_t value, bool verbose)`.  The
parameter `LP64` says whether `_LP64` is defined for the build; the threshold
`max_juint * 1 * M` is the `juint` product `max_juint * 1` widened to `size_t`
and multiplied by `M`. -/
def NewSizeConstraintFuncG1 (LP64 : Bool) (value : Nat) (verbose : Bool) (vm : VM) :
    Flag.Error × VM :=
  if LP64 then
    if vm.globals.UseG1GC && decide (value > size_t_mul (juint_mul max_juint 1) M) then
      (Flag.Error.VIOLATES_CONSTRAINT,
        CommandLineError.print verbose
          ("NewSize (" ++ toString value ++
            ") must be less than ergonomic maximum value\n") vm)
    else (Flag.Error.SUCCESS, vm)
  else (Flag.Error.SUCCESS, vm)

/-- Embeds `size_t MaxSizeForHeapAlignmentG1()`. -/
def MaxSizeForHeapAlignmentG1 (vm : VM) : Nat :=
  vm.globals.bounds.max_size

/-- The narrowing the comment of `NewSizeConstraintFuncG1` protects:
`(uint)(NewSize / region size)`, the quotient truncated to 32 bits. -/
def min_desired_young_length (NewSize region_size : Nat) : Nat :=
  (NewSize / region_size) % 2 ^ 32

/-! ## Sample states -/

/-- An origin left at its default. -/
def Flag.Flags.DEFAULT : Flag.Flags := ⟨true, false⟩

/-- An origin set on the command line. -/
def Flag.Flags.COMMAND_LINE : Flag.Flags := ⟨false, true⟩

/-- A G1 configuration with every flag at its default; region sizes between
1 MiB and 32 MiB. -/
def sampleGlobals : Globals where
  UseG1GC := true
  G1RSetRegionEntries := ⟨0, Flag.Flags.DEFAULT⟩
  G1RSetSparseRegionEntries := ⟨0, Flag.Flags.DEFAULT⟩
  G1HeapRegionSize := ⟨0, Flag.Flags.DEFAULT⟩
  G1NewSizePercent := ⟨5, Flag.Flags.DEFAULT⟩
  G1MaxNewSizePercent := ⟨60, Flag.Flags.DEFAULT⟩
  MaxGCPauseMillis := ⟨200, Flag.Flags.DEFAULT⟩
  GCPauseIntervalMillis := ⟨201, Flag.Flags.DEFAULT⟩
  NewSize := ⟨1048576, Flag.Flags.DEFAULT⟩
  bounds := ⟨1048576, 33554432⟩

/-- The sample configuration with an empty error stream. -/
def sampleVM : VM := ⟨sampleGlobals, []⟩

/-- The sample configuration with the collector variant inactive. -/
def inactiveVM : VM := ⟨{ sampleGlobals with UseG1GC := false }, []⟩

/-- Both pause flags given on the command line: a pause goal of 200 ms in an
interval of 500 ms. -/
def pauseVM : VM :=
  ⟨{ sampleGlobals with
      MaxGCPauseMillis := ⟨200, Flag.Flags.COMMAND_LINE⟩
      GCPauseIntervalMillis := ⟨500, Flag.Flags.COMMAND_LINE⟩ }, []⟩

/-- Only the pause interval given on the command line; the pause goal is left
at its default. -/
def intervalOnlyVM : VM :=
  ⟨{ sampleGlobals with GCPauseIntervalMillis := ⟨500, Flag.Flags.COMMAND_LINE⟩ }, []⟩

/-- The state `vm` with the origins of the two percent flags replaced. -/
def with_percent_origins (vm : VM) (oNew oMax : Flag.Flags) : VM :=
  { vm with globals := { vm.globals with
      G1NewSizePercent := ⟨vm.globals.G1NewSizePercent.value, oNew⟩
      G1MaxNewSizePercent := ⟨vm.globals.G1MaxNewSizePercent.value, oMax⟩ } }

/-- A young-generation floor of 20 percent left at its default, as in the
scenario of the specification. -/
def percentVM : VM :=
  ⟨{ sampleGlobals with G1NewSizePercent := ⟨20, Flag.Flags.DEFAULT⟩ }, []⟩

/-- The remembered-set limits and the region size given on the command line. -/
def regionVM : VM :=
  ⟨{ sampleGlobals with
      G1RSetRegionEntries := ⟨256, Flag.Flags.COMMAND_LINE⟩
      G1RSetSparseRegionEntries := ⟨4, Flag.Flags.COMMAND_LINE⟩
      G1HeapRegionSize := ⟨2097152, Flag.Flags.COMMAND_LINE⟩ }, []⟩

/-- The largest value of the word-sized unsigned type `uintx`: `2^64 - 1` on an
`_LP64` build and `2^32 - 1` on a narrower one. -/
def max_uintx (LP64 : Bool) : Nat :=
  if LP64 then 2 ^ 64 - 1 else 2 ^ 32 - 1

/-- What a call owes the error stream: a rejecting call with `verbose` appends
exactly one line to the stream it found, and every other call leaves the stream
as it found it. -/
def emits_one_line_iff_rejected_verbose (verbose : Bool) (before : VM)
    (r : Flag.Error × VM) : Prop :=
  (r.1 = Flag.Error.VIOLATES_CONSTRAINT ∧ verbose = true →
    ∃ msg : String, r.2.error_stream = before.error_stream ++ [msg]) ∧
  (¬ (r.1 = Flag.Error.VIOLATES_CONSTRAINT ∧ verbose = true) →
    r.2.error_stream = before.error_stream)

/-- The pause goal given on the command line while the pause interval is still
at its initial value 0. -/
def zeroIntervalVM : VM :=
  ⟨{ sampleGlobals with
      MaxGCPauseMillis := ⟨100, Flag.Flags.COMMAND_LINE⟩
      GCPauseIntervalMillis := ⟨0, Flag.Flags.DEFAULT⟩ }, []⟩

/-! ## Collector variant inactive -/

/-- C1: when `UseG1GC` is false, each of the eight constraint functions returns
`SUCCESS`, for every candidate value, every state (so every flag origin and
every sibling-flag value), either value of `verbose`, and, for `NewSize`, on
both the `_LP64` build and the narrower one. -/
theorem inactive_collector_accepts_everything (vm : VM)
    (hG1 : vm.globals.UseG1GC = false) (i : Int) (n : Nat) (verbose LP64 : Bool) :
    (G1RSetRegionEntriesConstraintFunc i verbose vm).1 = Flag.Error.SUCCESS ∧
    (G1RSetSparseRegionEntriesConstraintFunc i verbose vm).1 = Flag.Error.SUCCESS ∧
    (G1HeapRegionSizeConstraintFunc n verbose vm).1 = Flag.Error.SUCCESS ∧
    (G1NewSizePercentConstraintFunc n verbose vm).1 = Flag.Error.SUCCESS ∧
    (G1MaxNewSizePercentConstraintFunc n verbose vm).1 = Flag.Error.SUCCESS ∧
    (MaxGCPauseMillisConstraintFuncG1 n verbose vm).1 = Flag.Error.SUCCESS ∧
    (GCPauseIntervalMillisConstraintFuncG1 n verbose vm).1 = Flag.Error.SUCCESS ∧
    (NewSizeConstraintFuncG1 LP64 n verbose vm).1 = Flag.Error.SUCCESS := by
  refine ⟨?_, ?_, ?_, ?_, ?_, ?_, ?_, ?_⟩
  · simp [G1RSetRegionEntriesConstraintFunc, hG1]
  · simp [G1RSetSparseRegionEntriesConstraintFunc, hG1]
  · simp [G1HeapRegionSizeConstraintFunc, hG1]
  · simp [G1NewSizePercentConstraintFunc, hG1]
  · simp [G1MaxNewSizePercentConstraintFunc, hG1]
  · simp [MaxGCPauseMillisConstraintFuncG1, hG1]
  · simp [GCPauseIntervalMillisConstraintFuncG1, hG1]
  · cases LP64 <;> simp [NewSizeConstraintFuncG1, hG1]

/-- Witness for C1: the scenario of the specification, a region-entries limit
of -5 with the collector inactive, together with out-of-range candidates for
the other seven functions. -/
theorem inactive_collector_accepts_everything_witness :
    inactiveVM.globals.UseG1GC = false ∧
    (G1RSetRegionEntriesConstraintFunc (-5) true inactiveVM).1 = Flag.Error.SUCCESS ∧
    (G1RSetSparseRegionEntriesConstraintFunc (-5) true inactiveVM).1 = Flag.Error.SUCCESS ∧
    (G1HeapRegionSizeConstraintFunc 0 true inactiveVM).1 = Flag.Error.SUCCESS ∧
    (G1NewSizePercentConstraintFunc 0 true inactiveVM).1 = Flag.Error.SUCCESS ∧
    (G1MaxNewSizePercentConstraintFunc 0 true inactiveVM).1 = Flag.Error.SUCCESS ∧
    (MaxGCPauseMillisConstraintFuncG1 0 true inactiveVM).1 = Flag.Error.SUCCESS ∧
    (GCPauseIntervalMillisConstraintFuncG1 0 true inactiveVM).1 = Flag.Error.SUCCESS ∧
    (NewSizeConstraintFuncG1 true 0 true inactiveVM).1 = Flag.Error.SUCCESS :=
  ⟨rfl, inactive_collector_accepts_everything inactiveVM rfl (-5) 0 true true⟩

/-! ## The pause pair -/

/-- C2: with the collector active and `GCPauseIntervalMillis` given on the
command line, the interval check accepts exactly when the value is at least 1,
`MaxGCPauseMillis` has been set (it is not at its default) and the value is
greater than the current `MaxGCPauseMillis`; in particular a value at most
`MaxGCPauseMillis` is rejected, and a value of at least 1 above a
`MaxGCPauseMillis` that has been set is accepted.  Where the origin of
`MaxGCPauseMillis` is one of the two origins of the specification (given on the
command line exactly when not at its default), "has been set" may be read as
"given on the command line".  When `GCPauseIntervalMillis` is not given on the
command line every value is accepted. -/
theorem pause_interval_accepts_iff (vm : VM) (hG1 : vm.globals.UseG1GC = true)
    (value : Nat) (verbose : Bool) :
    (FLAG_IS_CMDLINE vm.globals.GCPauseIntervalMillis = true →
      (((GCPauseIntervalMillisConstraintFuncG1 value verbose vm).1 = Flag.Error.SUCCESS ↔
          1 ≤ value ∧ FLAG_IS_DEFAULT vm.globals.MaxGCPauseMillis = false ∧
            vm.globals.MaxGCPauseMillis.value < value) ∧
        (value ≤ vm.globals.MaxGCPauseMillis.value →
          (GCPauseIntervalMillisConstraintFuncG1 value verbose vm).1 =
            Flag.Error.VIOLATES_CONSTRAINT) ∧
        (FLAG_IS_DEFAULT vm.globals.MaxGCPauseMillis = false →
          vm.globals.MaxGCPauseMillis.value < value → 1 ≤ value →
          (GCPauseIntervalMillisConstraintFuncG1 value verbose vm).1 =
            Flag.Error.SUCCESS) ∧
        (FLAG_IS_CMDLINE vm.globals.MaxGCPauseMillis =
            !FLAG_IS_DEFAULT vm.globals.MaxGCPauseMillis →
          ((GCPauseIntervalMillisConstraintFuncG1 value verbose vm).1 = Flag.Error.SUCCESS ↔
            1 ≤ value ∧ FLAG_IS_CMDLINE vm.globals.MaxGCPauseMillis = true ∧
              vm.globals.MaxGCPauseMillis.value < value)))) ∧
    (FLAG_IS_CMDLINE vm.globals.GCPauseIntervalMillis = false →
      (GCPauseIntervalMillisConstraintFuncG1 value verbose vm).1 = Flag.Error.SUCCESS) := by
  have hiff : FLAG_IS_CMDLINE vm.globals.GCPauseIntervalMillis = true →
      ((GCPauseIntervalMillisConstraintFuncG1 value verbose vm).1 = Flag.Error.SUCCESS ↔
        1 ≤ value ∧ FLAG_IS_DEFAULT vm.globals.MaxGCPauseMillis = false ∧
          vm.globals.MaxGCPauseMillis.value < value) := by
    intro hcmd
    cases hdef : FLAG_IS_DEFAULT vm.globals.MaxGCPauseMillis <;>
      by_cases h1 : value < 1 <;>
      by_cases h2 : value ≤ vm.globals.MaxGCPauseMillis.value <;>
      simp [GCPauseIntervalMillisConstraintFuncG1, hG1, hcmd, hdef, h1, h2]
    all_goals omega
  refine ⟨fun hcmd => ⟨hiff hcmd, ?_, ?_, ?_⟩, fun hcmd => ?_⟩
  · intro h2
    cases hdef : FLAG_IS_DEFAULT vm.globals.MaxGCPauseMillis <;>
      by_cases h1 : value < 1 <;>
      simp [GCPauseIntervalMillisConstraintFuncG1, hG1, hcmd, hdef, h1, h2]
  · intro hdef h2 h1
    have h1' : ¬ value < 1 := by omega
    have h2' : ¬ value ≤ vm.globals.MaxGCPauseMillis.value := by omega
    simp [GCPauseIntervalMillisConstraintFuncG1, hG1, hcmd, hdef, h1', h2']
  · intro horigin
    rw [hiff hcmd, horigin]
    cases FLAG_IS_DEFAULT vm.globals.MaxGCPauseMillis <;> simp
  · simp [GCPauseIntervalMillisConstraintFuncG1, hG1, hcmd]

/-- Witness for C2: an interval of 500 ms against a pause goal of 200 ms, both
given on the command line, is accepted. -/
theorem pause_interval_accepts_iff_witness :
    pauseVM.globals.UseG1GC = true ∧
    (GCPauseIntervalMillisConstraintFuncG1 500 true pauseVM).1 = Flag.Error.SUCCESS :=
  ⟨rfl, ((pause_interval_accepts_iff pauseVM rfl 500 true).1 rfl).2.2.1 rfl
    (by decide) (by decide)⟩

/-- C3: with the collector active, `GCPauseIntervalMillis` given on the command
line and `MaxGCPauseMillis` still at its default, the interval check returns
`VIOLATES_CONSTRAINT` for every candidate value and every current value of
`MaxGCPauseMillis`. -/
theorem pause_interval_rejects_when_max_pause_default (vm : VM)
    (hG1 : vm.globals.UseG1GC = true)
    (hcmd : FLAG_IS_CMDLINE vm.globals.GCPauseIntervalMillis = true)
    (hdef : FLAG_IS_DEFAULT vm.globals.MaxGCPauseMillis = true)
    (value : Nat) (verbose : Bool) :
    (GCPauseIntervalMillisConstraintFuncG1 value verbose vm).1 =
      Flag.Error.VIOLATES_CONSTRAINT := by
  by_cases h1 : value < 1 <;>
    simp [GCPauseIntervalMillisConstraintFuncG1, hG1, hcmd, hdef, h1]

/-- Witness for C3: an interval of 1000 ms, well above the default pause goal of
200 ms, is rejected because the pause goal was not set. -/
theorem pause_interval_rejects_when_max_pause_default_witness :
    intervalOnlyVM.globals.UseG1GC = true ∧
    FLAG_IS_CMDLINE intervalOnlyVM.globals.GCPauseIntervalMillis = true ∧
    FLAG_IS_DEFAULT intervalOnlyVM.globals.MaxGCPauseMillis = true ∧
    (GCPauseIntervalMillisConstraintFuncG1 1000 false intervalOnlyVM).1 =
      Flag.Error.VIOLATES_CONSTRAINT :=
  ⟨rfl, rfl, rfl,
    pause_interval_rejects_when_max_pause_default intervalOnlyVM rfl rfl rfl 1000 false⟩

/-- C4: with the collector active, the pause-goal check rejects a candidate
exactly when `MaxGCPauseMillis` is given on the command line and the value is at
least the current `GCPauseIntervalMillis`: a value given on the command line is
accepted exactly when it is below the current interval, and a value that is not
given on the command line is always accepted. -/
theorem max_pause_rejects_iff (vm : VM) (hG1 : vm.globals.UseG1GC = true)
    (value : Nat) (verbose : Bool) :
    ((MaxGCPauseMillisConstraintFuncG1 value verbose vm).1 = Flag.Error.VIOLATES_CONSTRAINT ↔
      FLAG_IS_CMDLINE vm.globals.MaxGCPauseMillis = true ∧
        value ≥ vm.globals.GCPauseIntervalMillis.value) ∧
    (FLAG_IS_CMDLINE vm.globals.MaxGCPauseMillis = true →
      ((MaxGCPauseMillisConstraintFuncG1 value verbose vm).1 = Flag.Error.SUCCESS ↔
        value < vm.globals.GCPauseIntervalMillis.value)) ∧
    (FLAG_IS_CMDLINE vm.globals.MaxGCPauseMillis = false →
      (MaxGCPauseMillisConstraintFuncG1 value verbose vm).1 = Flag.Error.SUCCESS) := by
  refine ⟨?_, fun hcmd => ?_, fun hcmd => ?_⟩
  · cases hcmd : FLAG_IS_CMDLINE vm.globals.MaxGCPauseMillis <;>
      by_cases h : vm.globals.GCPauseIntervalMillis.value ≤ value <;>
      simp [MaxGCPauseMillisConstraintFuncG1, hG1, hcmd, h]
  · by_cases h : vm.globals.GCPauseIntervalMillis.value ≤ value <;>
      simp [MaxGCPauseMillisConstraintFuncG1, hG1, hcmd, h]
    omega
  · simp [MaxGCPauseMillisConstraintFuncG1, hG1, hcmd]

/-- Witness for C4: with an interval of 500 ms, a pause goal of 500 ms given on
the command line is rejected. -/
theorem max_pause_rejects_iff_witness :
    pauseVM.globals.UseG1GC = true ∧
    (MaxGCPauseMillisConstraintFuncG1 500 true pauseVM).1 = Flag.Error.VIOLATES_CONSTRAINT :=
  ⟨rfl, (max_pause_rejects_iff pauseVM rfl 500 true).1.2 ⟨rfl, by decide⟩⟩

/-! ## The percent pair -/

/-- C5: the percent pair is symmetric.  With the collector active, checking
`G1NewSizePercent = newPct` against a current `G1MaxNewSizePercent` of `maxPct`
gives the same verdict as checking `G1MaxNewSizePercent = maxPct` against a
current `G1NewSizePercent` of `newPct`, and that verdict is
`VIOLATES_CONSTRAINT` exactly when `newPct > maxPct`. -/
theorem percent_pair_symmetric (vmNew vmMax : VM)
    (hNew : vmNew.globals.UseG1GC = true) (hMax : vmMax.globals.UseG1GC = true)
    (newPct maxPct : Nat)
    (hmaxPct : vmNew.globals.G1MaxNewSizePercent.value = maxPct)
    (hnewPct : vmMax.globals.G1NewSizePercent.value = newPct)
    (verboseNew verboseMax : Bool) :
    (G1NewSizePercentConstraintFunc newPct verboseNew vmNew).1 =
      (G1MaxNewSizePercentConstraintFunc maxPct verboseMax vmMax).1 ∧
    ((G1NewSizePercentConstraintFunc newPct verboseNew vmNew).1 =
      Flag.Error.VIOLATES_CONSTRAINT ↔ newPct > maxPct) := by
  by_cases h : maxPct < newPct <;>
    simp [G1NewSizePercentConstraintFunc, G1MaxNewSizePercentConstraintFunc,
      hNew, hMax, hmaxPct, hnewPct, h]

/-- Witness for C5: a floor of 70 percent against the default ceiling of 60
percent, and a ceiling of 60 percent against a floor of 70 percent. -/
theorem percent_pair_symmetric_witness :
    sampleVM.globals.UseG1GC = true ∧
    sampleVM.globals.G1MaxNewSizePercent.value = 60 ∧
    (with_percent_origins ⟨{ sampleGlobals with G1NewSizePercent := ⟨70, Flag.Flags.COMMAND_LINE⟩ }, []⟩
      Flag.Flags.COMMAND_LINE Flag.Flags.DEFAULT).globals.G1NewSizePercent.value = 70 ∧
    (G1NewSizePercentConstraintFunc 70 true sampleVM).1 = Flag.Error.VIOLATES_CONSTRAINT :=
  ⟨rfl, rfl, rfl,
    (percent_pair_symmetric sampleVM
      (with_percent_origins ⟨{ sampleGlobals with G1NewSizePercent := ⟨70, Flag.Flags.COMMAND_LINE⟩ }, []⟩
        Flag.Flags.COMMAND_LINE Flag.Flags.DEFAULT)
      rfl rfl 70 60 rfl rfl true true).2.2 (by decide)⟩

/-- C6: the percent-pair checks are enforced whatever the origins of the two
flags.  With the collector active and the origins of `G1NewSizePercent` and
`G1MaxNewSizePercent` replaced by any two origins, the check of
`G1NewSizePercent` rejects exactly when the value exceeds the current
`G1MaxNewSizePercent`, the check of `G1MaxNewSizePercent` rejects exactly when
the value is below the current `G1NewSizePercent`, both verdicts are the ones
of the state with the original origins, and with `verbose` the one line written
on rejection cites the value and the current sibling value.  In particular
`G1MaxNewSizePercent = 10` checked while `G1NewSizePercent` holds 20, whatever
its origin, is rejected, and the line written cites both 10 and 20. -/
theorem percent_pair_enforced_for_every_origin (vm : VM)
    (hG1 : vm.globals.UseG1GC = true)
    (oNew oMax : Flag.Flags) (value : Nat) (verbose : Bool) :
    ((G1NewSizePercentConstraintFunc value verbose (with_percent_origins vm oNew oMax)).1 =
        Flag.Error.VIOLATES_CONSTRAINT ↔
      value > vm.globals.G1MaxNewSizePercent.value) ∧
    ((G1NewSizePercentConstraintFunc value verbose (with_percent_origins vm oNew oMax)).1 =
        Flag.Error.SUCCESS ↔
      value ≤ vm.globals.G1MaxNewSizePercent.value) ∧
    ((G1MaxNewSizePercentConstraintFunc value verbose (with_percent_origins vm oNew oMax)).1 =
        Flag.Error.VIOLATES_CONSTRAINT ↔
      value < vm.globals.G1NewSizePercent.value) ∧
    ((G1MaxNewSizePercentConstraintFunc value verbose (with_percent_origins vm oNew oMax)).1 =
        Flag.Error.SUCCESS ↔
      vm.globals.G1NewSizePercent.value ≤ value) ∧
    (G1NewSizePercentConstraintFunc value verbose (with_percent_origins vm oNew oMax)).1 =
      (G1NewSizePercentConstraintFunc value verbose vm).1 ∧
    (G1MaxNewSizePercentConstraintFunc value verbose (with_percent_origins vm oNew oMax)).1 =
      (G1MaxNewSizePercentConstraintFunc value verbose vm).1 ∧
    (value > vm.globals.G1MaxNewSizePercent.value →
      (G1NewSizePercentConstraintFunc value true
          (with_percent_origins vm oNew oMax)).2.error_stream =
        vm.error_stream ++
          ["G1NewSizePercent (" ++ toString value ++ ") must be " ++
            "less than or equal to G1MaxNewSizePercent (" ++
            toString vm.globals.G1MaxNewSizePercent.value ++ ")\n"]) ∧
    (value < vm.globals.G1NewSizePercent.value →
      (G1MaxNewSizePercentConstraintFunc value true
          (with_percent_origins vm oNew oMax)).2.error_stream =
        vm.error_stream ++
          ["G1MaxNewSizePercent (" ++ toString value ++ ") must be " ++
            "greater than or equal to G1NewSizePercent (" ++
            toString vm.globals.G1NewSizePercent.value ++ ")\n"]) ∧
    (vm.globals.G1NewSizePercent.value = 20 →
      (G1MaxNewSizePercentConstraintFunc 10 verbose (with_percent_origins vm oNew oMax)).1 =
        Flag.Error.VIOLATES_CONSTRAINT ∧
      (G1MaxNewSizePercentConstraintFunc 10 true
          (with_percent_origins vm oNew oMax)).2.error_stream =
        vm.error_stream ++
          ["G1MaxNewSizePercent (10) must be greater than or equal to G1NewSizePercent (20)\n"] ∧
      (G1MaxNewSizePercentConstraintFunc 10 verbose vm).1 = Flag.Error.VIOLATES_CONSTRAINT ∧
      (G1MaxNewSizePercentConstraintFunc 10 true vm).2.error_stream =
        vm.error_stream ++
          ["G1MaxNewSizePercent (10) must be greater than or equal to G1NewSizePercent (20)\n"]) := by
  refine ⟨?_, ?_, ?_, ?_, ?_, ?_, fun h => ?_, fun h => ?_, fun h20 => ⟨?_, ?_, ?_, ?_⟩⟩
  · by_cases h : vm.globals.G1MaxNewSizePercent.value < value <;>
      simp [G1NewSizePercentConstraintFunc, with_percent_origins, hG1, h]
  · by_cases h : vm.globals.G1MaxNewSizePercent.value < value <;>
      simp [G1NewSizePercentConstraintFunc, with_percent_origins, hG1, h]
    omega
  · by_cases h : value < vm.globals.G1NewSizePercent.value <;>
      simp [G1MaxNewSizePercentConstraintFunc, with_percent_origins, hG1, h]
  · by_cases h : value < vm.globals.G1NewSizePercent.value <;>
      simp [G1MaxNewSizePercentConstraintFunc, with_percent_origins, hG1, h]
    omega
  · by_cases h : vm.globals.G1MaxNewSizePercent.value < value <;>
      simp [G1NewSizePercentConstraintFunc, with_percent_origins, hG1, h]
  · by_cases h : value < vm.globals.G1NewSizePercent.value <;>
      simp [G1MaxNewSizePercentConstraintFunc, with_percent_origins, hG1, h]
  · have h' : vm.globals.G1MaxNewSizePercent.value < value := h
    simp [G1NewSizePercentConstraintFunc, CommandLineError.print, with_percent_origins, hG1, h']
  · simp [G1MaxNewSizePercentConstraintFunc, CommandLineError.print, with_percent_origins,
      hG1, h]
  · simp [G1MaxNewSizePercentConstraintFunc, with_percent_origins, hG1, h20]
  · simp [G1MaxNewSizePercentConstraintFunc, CommandLineError.print, with_percent_origins,
      hG1, h20]
    decide
  · simp [G1MaxNewSizePercentConstraintFunc, hG1, h20]
  · simp [G1MaxNewSizePercentConstraintFunc, CommandLineError.print, hG1, h20]
    decide

/-- Witness for C6: the scenario of the specification, with the floor of 20
percent at its default and the ceiling of 10 percent, given on the command line,
under validation. -/
theorem percent_pair_enforced_for_every_origin_witness :
    percentVM.globals.UseG1GC = true ∧
    percentVM.globals.G1NewSizePercent.value = 20 ∧
    FLAG_IS_DEFAULT
      (with_percent_origins percentVM Flag.Flags.DEFAULT
        Flag.Flags.COMMAND_LINE).globals.G1NewSizePercent = true ∧
    FLAG_IS_CMDLINE
      (with_percent_origins percentVM Flag.Flags.DEFAULT
        Flag.Flags.COMMAND_LINE).globals.G1MaxNewSizePercent = true ∧
    (G1MaxNewSizePercentConstraintFunc 10 true
        (with_percent_origins percentVM Flag.Flags.DEFAULT Flag.Flags.COMMAND_LINE)).1 =
      Flag.Error.VIOLATES_CONSTRAINT ∧
    (G1MaxNewSizePercentConstraintFunc 10 true
        (with_percent_origins percentVM Flag.Flags.DEFAULT
          Flag.Flags.COMMAND_LINE)).2.error_stream =
      percentVM.error_stream ++
        ["G1MaxNewSizePercent (10) must be greater than or equal to G1NewSizePercent (20)\n"] ∧
    (G1MaxNewSizePercentConstraintFunc 10 true percentVM).1 = Flag.Error.VIOLATES_CONSTRAINT ∧
    (G1MaxNewSizePercentConstraintFunc 10 true percentVM).2.error_stream =
      percentVM.error_stream ++
        ["G1MaxNewSizePercent (10) must be greater than or equal to G1NewSizePercent (20)\n"] :=
  ⟨rfl, rfl, rfl, rfl,
    (percent_pair_enforced_for_every_origin percentVM rfl Flag.Flags.DEFAULT
      Flag.Flags.COMMAND_LINE 10 true).2.2.2.2.2.2.2.2 rfl⟩

/-! ## Lower bounds on flags given on the command line -/

/-- C7: with the collector active and `G1RSetRegionEntries` given on the command
line, the check rejects every signed value below 1 (so every negative value and
0) and accepts every value from 1 on; when the flag is not given on the command
line every value is accepted. -/
theorem region_entries_lower_bound (vm : VM) (hG1 : vm.globals.UseG1GC = true)
    (value : Int) (verbose : Bool) :
    (FLAG_IS_CMDLINE vm.globals.G1RSetRegionEntries = true →
      (value < 1 →
        (G1RSetRegionEntriesConstraintFunc value verbose vm).1 =
          Flag.Error.VIOLATES_CONSTRAINT) ∧
      (1 ≤ value →
        (G1RSetRegionEntriesConstraintFunc value verbose vm).1 = Flag.Error.SUCCESS)) ∧
    (FLAG_IS_CMDLINE vm.globals.G1RSetRegionEntries = false →
      (G1RSetRegionEntriesConstraintFunc value verbose vm).1 = Flag.Error.SUCCESS) := by
  refine ⟨fun hcmd => ⟨fun h => ?_, fun h => ?_⟩, fun hcmd => ?_⟩
  · simp [G1RSetRegionEntriesConstraintFunc, hG1, hcmd, h]
  · have h' : ¬ value < 1 := by omega
    simp [G1RSetRegionEntriesConstraintFunc, hG1, hcmd, h']
  · simp [G1RSetRegionEntriesConstraintFunc, hG1, hcmd]

/-- Witness for C7: a limit of -5 given on the command line is rejected. -/
theorem region_entries_lower_bound_witness :
    regionVM.globals.UseG1GC = true ∧
    FLAG_IS_CMDLINE regionVM.globals.G1RSetRegionEntries = true ∧
    (G1RSetRegionEntriesConstraintFunc (-5) true regionVM).1 =
      Flag.Error.VIOLATES_CONSTRAINT :=
  ⟨rfl, rfl, ((region_entries_lower_bound regionVM rfl (-5) true).1 rfl).1 (by decide)⟩

/-- C8: with the collector active and `G1HeapRegionSize` given on the command
line, the check rejects every value strictly below
`HeapRegionBounds::min_size()` and accepts every value that is at least that
minimum, the minimum itself included; when the flag is not given on the command
line every value is accepted. -/
theorem heap_region_size_lower_bound (vm : VM) (hG1 : vm.globals.UseG1GC = true)
    (value : Nat) (verbose : Bool) :
    (FLAG_IS_CMDLINE vm.globals.G1HeapRegionSize = true →
      (value < vm.globals.bounds.min_size →
        (G1HeapRegionSizeConstraintFunc value verbose vm).1 =
          Flag.Error.VIOLATES_CONSTRAINT) ∧
      (vm.globals.bounds.min_size ≤ value →
        (G1HeapRegionSizeConstraintFunc value verbose vm).1 = Flag.Error.SUCCESS) ∧
      (G1HeapRegionSizeConstraintFunc vm.globals.bounds.min_size verbose vm).1 =
        Flag.Error.SUCCESS) ∧
    (FLAG_IS_CMDLINE vm.globals.G1HeapRegionSize = false →
      (G1HeapRegionSizeConstraintFunc value verbose vm).1 = Flag.Error.SUCCESS) := by
  refine ⟨fun hcmd => ⟨fun h => ?_, fun h => ?_, ?_⟩, fun hcmd => ?_⟩
  · simp [G1HeapRegionSizeConstraintFunc, hG1, hcmd, h]
  · have h' : ¬ value < vm.globals.bounds.min_size := by omega
    simp [G1HeapRegionSizeConstraintFunc, hG1, hcmd, h']
  · simp [G1HeapRegionSizeConstraintFunc, hG1, hcmd]
  · simp [G1HeapRegionSizeConstraintFunc, hG1, hcmd]

/-- Witness for C8: with a minimum region size of 1 MiB, a region size of
1 MiB - 1 given on the command line is rejected and 1 MiB itself is accepted. -/
theorem heap_region_size_lower_bound_witness :
    regionVM.globals.UseG1GC = true ∧
    FLAG_IS_CMDLINE regionVM.globals.G1HeapRegionSize = true ∧
    regionVM.globals.bounds.min_size = 1048576 ∧
    (G1HeapRegionSizeConstraintFunc 1048575 true regionVM).1 =
      Flag.Error.VIOLATES_CONSTRAINT ∧
    (G1HeapRegionSizeConstraintFunc regionVM.globals.bounds.min_size true regionVM).1 =
      Flag.Error.SUCCESS :=
  ⟨rfl, rfl, rfl,
    ((heap_region_size_lower_bound regionVM rfl 1048575 true).1 rfl).1 (by decide),
    ((heap_region_size_lower_bound regionVM rfl 1048575 true).1 rfl).2.2⟩

/-! ## The bound on `NewSize` -/

/-- The threshold `max_juint * 1 * M`, evaluated with the wrap-around of its two
machine multiplications, is the exact product `(2^32 - 1) * 2^20`. -/
theorem new_size_threshold :
    size_t_mul (juint_mul max_juint 1) M = 4503599626321920 := by
  decide

/-- C9: on an `_LP64` build with the collector active, the `NewSize` check
rejects a value exactly when it exceeds `(2^32 - 1) * 2^20 = 4503599626321920`;
the threshold `max_juint * 1 * M`, computed with 32-bit and then 64-bit unsigned
multiplication, equals the exact product, so nothing wraps.  The state is
arbitrary, so the origin of `NewSize` plays no part.  On a build without
`_LP64` every value is accepted. -/
theorem new_size_rejects_iff (vm : VM) (value : Nat) (verbose : Bool) :
    size_t_mul (juint_mul max_juint 1) M = max_juint * 1 * M ∧
    max_juint * 1 * M = (2 ^ 32 - 1) * 2 ^ 20 ∧
    (2 ^ 32 - 1) * 2 ^ 20 = 4503599626321920 ∧
    (vm.globals.UseG1GC = true →
      ((NewSizeConstraintFuncG1 true value verbose vm).1 = Flag.Error.VIOLATES_CONSTRAINT ↔
        value > 4503599626321920)) ∧
    (NewSizeConstraintFuncG1 false value verbose vm).1 = Flag.Error.SUCCESS := by
  refine ⟨by decide, by decide, by decide, fun hG1 => ?_, ?_⟩
  · by_cases h : 4503599626321920 < value <;>
      simp [NewSizeConstraintFuncG1, hG1, new_size_threshold, h]
  · simp [NewSizeConstraintFuncG1]

/-- Witness for C9: the first value above the threshold is rejected on an
`_LP64` build and accepted on a narrower one. -/
theorem new_size_rejects_iff_witness :
    sampleVM.globals.UseG1GC = true ∧
    (NewSizeConstraintFuncG1 true 4503599626321921 true sampleVM).1 =
      Flag.Error.VIOLATES_CONSTRAINT ∧
    (NewSizeConstraintFuncG1 false 4503599626321921 true sampleVM).1 = Flag.Error.SUCCESS :=
  ⟨rfl, ((new_size_rejects_iff sampleVM 4503599626321921 true).2.2.2.1 rfl).2 (by decide),
    (new_size_rejects_iff sampleVM 4503599626321921 true).2.2.2.2⟩

/-- C10: on an `_LP64` build with the collector active, every `NewSize` value
the check accepts, divided by a region size between 1 MiB and 32 MiB, gives a
quotient of at most `2^32 - 1`; truncating the quotient to 32 bits, as
`(uint)(NewSize / region size)` does, leaves it unchanged. -/
theorem new_size_quotient_fits_uint (vm : VM) (hG1 : vm.globals.UseG1GC = true)
    (value : Nat) (verbose : Bool)
    (hacc : (NewSizeConstraintFuncG1 true value verbose vm).1 = Flag.Error.SUCCESS)
    (region_size : Nat) (hlo : 1 * M ≤ region_size) (hhi : region_size ≤ 32 * M) :
    value / region_size ≤ 2 ^ 32 - 1 ∧
    min_desired_young_length value region_size = value / region_size := by
  have hv : value ≤ 4503599626321920 := by
    by_contra hgt
    have hgt' : 4503599626321920 < value := by omega
    simp [NewSizeConstraintFuncG1, hG1, new_size_threshold, hgt'] at hacc
  have hM : M = 1048576 := by decide
  have hr : 1048576 ≤ region_size := by omega
  have hq : value / region_size ≤ 4294967295 := by
    calc value / region_size
        ≤ value / 1048576 := Nat.div_le_div_left hr (by decide)
      _ ≤ 4503599626321920 / 1048576 := Nat.div_le_div_right hv
      _ = 4294967295 := by decide
  refine ⟨by simpa using hq, ?_⟩
  unfold min_desired_young_length
  exact Nat.mod_eq_of_lt (by omega)

/-- Witness for C10: the largest accepted `NewSize` with the smallest region
size of 1 MiB gives the quotient `2^32 - 1`, unchanged by the truncation. -/
theorem new_size_quotient_fits_uint_witness :
    sampleVM.globals.UseG1GC = true ∧
    (NewSizeConstraintFuncG1 true 4503599626321920 false sampleVM).1 = Flag.Error.SUCCESS ∧
    1 * M ≤ 1048576 ∧ 1048576 ≤ 32 * M ∧
    4503599626321920 / 1048576 ≤ 2 ^ 32 - 1 ∧
    min_desired_young_length 4503599626321920 1048576 = 4503599626321920 / 1048576 :=
  ⟨rfl, by decide, by decide, by decide,
    new_size_quotient_fits_uint sampleVM rfl 4503599626321920 false (by decide)
      1048576 (by decide) (by decide)⟩

/-! ## Effects of a call: configuration and error stream -/

/-- Printing a diagnostic leaves the configuration alone. -/
theorem print_globals (verbose : Bool) (msg : String) (vm : VM) :
    (CommandLineError.print verbose msg vm).globals = vm.globals := by
  cases verbose <;> rfl

/-- Printing with `verbose` appends the line; printing without it does nothing. -/
theorem print_error_stream (verbose : Bool) (msg : String) (vm : VM) :
    (CommandLineError.print verbose msg vm).error_stream =
      if verbose then vm.error_stream ++ [msg] else vm.error_stream := by
  cases verbose <;> rfl

/-- C11: no constraint function changes the configuration.  For each of the
eight functions, every candidate, every state (flag values, flag origins,
`UseG1GC`, region-size bounds), either `verbose` and either build, the
configuration after the call is the configuration before it, whatever the
verdict. -/
theorem constraint_funcs_keep_globals (vm : VM) (i : Int) (n : Nat)
    (verbose LP64 : Bool) :
    (G1RSetRegionEntriesConstraintFunc i verbose vm).2.globals = vm.globals ∧
    (G1RSetSparseRegionEntriesConstraintFunc i verbose vm).2.globals = vm.globals ∧
    (G1HeapRegionSizeConstraintFunc n verbose vm).2.globals = vm.globals ∧
    (G1NewSizePercentConstraintFunc n verbose vm).2.globals = vm.globals ∧
    (G1MaxNewSizePercentConstraintFunc n verbose vm).2.globals = vm.globals ∧
    (MaxGCPauseMillisConstraintFuncG1 n verbose vm).2.globals = vm.globals ∧
    (GCPauseIntervalMillisConstraintFuncG1 n verbose vm).2.globals = vm.globals ∧
    (NewSizeConstraintFuncG1 LP64 n verbose vm).2.globals = vm.globals := by
  refine ⟨?_, ?_, ?_, ?_, ?_, ?_, ?_, ?_⟩
  · unfold G1RSetRegionEntriesConstraintFunc
    split_ifs <;> simp [print_globals]
  · unfold G1RSetSparseRegionEntriesConstraintFunc
    split_ifs <;> simp [print_globals]
  · unfold G1HeapRegionSizeConstraintFunc
    split_ifs <;> simp [print_globals]
  · unfold G1NewSizePercentConstraintFunc
    split_ifs <;> simp [print_globals]
  · unfold G1MaxNewSizePercentConstraintFunc
    split_ifs <;> simp [print_globals]
  · unfold MaxGCPauseMillisConstraintFuncG1
    split_ifs <;> simp [print_globals]
  · unfold GCPauseIntervalMillisConstraintFuncG1
    split_ifs <;> simp [print_globals]
  · unfold NewSizeConstraintFuncG1
    split_ifs <;> simp [print_globals]

/-- C12: for each of the eight functions and every input, a line is written to
the error stream exactly when the verdict is `VIOLATES_CONSTRAINT` and `verbose`
is true, and then exactly one line is appended; an accepting call and a call
without `verbose` leave the error stream as it was. -/
theorem diagnostic_iff_rejected_verbose (vm : VM) (i : Int) (n : Nat)
    (verbose LP64 : Bool) :
    emits_one_line_iff_rejected_verbose verbose vm
      (G1RSetRegionEntriesConstraintFunc i verbose vm) ∧
    emits_one_line_iff_rejected_verbose verbose vm
      (G1RSetSparseRegionEntriesConstraintFunc i verbose vm) ∧
    emits_one_line_iff_rejected_verbose verbose vm
      (G1HeapRegionSizeConstraintFunc n verbose vm) ∧
    emits_one_line_iff_rejected_verbose verbose vm
      (G1NewSizePercentConstraintFunc n verbose vm) ∧
    emits_one_line_iff_rejected_verbose verbose vm
      (G1MaxNewSizePercentConstraintFunc n verbose vm) ∧
    emits_one_line_iff_rejected_verbose verbose vm
      (MaxGCPauseMillisConstraintFuncG1 n verbose vm) ∧
    emits_one_line_iff_rejected_verbose verbose vm
      (GCPauseIntervalMillisConstraintFuncG1 n verbose vm) ∧
    emits_one_line_iff_rejected_verbose verbose vm
      (NewSizeConstraintFuncG1 LP64 n verbose vm) := by
  refine ⟨?_, ?_, ?_, ?_, ?_, ?_, ?_, ?_⟩
  · unfold G1RSetRegionEntriesConstraintFunc emits_one_line_iff_rejected_verbose
    split_ifs <;> cases verbose <;> simp [print_error_stream]
  · unfold G1RSetSparseRegionEntriesConstraintFunc emits_one_line_iff_rejected_verbose
    split_ifs <;> cases verbose <;> simp [print_error_stream]
  · unfold G1HeapRegionSizeConstraintFunc emits_one_line_iff_rejected_verbose
    split_ifs <;> cases verbose <;> simp [print_error_stream]
  · unfold G1NewSizePercentConstraintFunc emits_one_line_iff_rejected_verbose
    split_ifs <;> cases verbose <;> simp [print_error_stream]
  · unfold G1MaxNewSizePercentConstraintFunc emits_one_line_iff_rejected_verbose
    split_ifs <;> cases verbose <;> simp [print_error_stream]
  · unfold MaxGCPauseMillisConstraintFuncG1 emits_one_line_iff_rejected_verbose
    split_ifs <;> cases verbose <;> simp [print_error_stream]
  · unfold GCPauseIntervalMillisConstraintFuncG1 emits_one_line_iff_rejected_verbose
    split_ifs <;> cases verbose <;> simp [print_error_stream]
  · unfold NewSizeConstraintFuncG1 emits_one_line_iff_rejected_verbose
    split_ifs <;> cases verbose <;> simp [print_error_stream]

/-- Witness for C12: a region-entries limit of -5 given on the command line,
checked with `verbose`, appends one line to the error stream. -/
theorem diagnostic_iff_rejected_verbose_witness :
    ∃ msg : String,
      (G1RSetRegionEntriesConstraintFunc (-5) true regionVM).2.error_stream =
        regionVM.error_stream ++ [msg] :=
  (diagnostic_iff_rejected_verbose regionVM (-5) 0 true true).1.1 ⟨by decide, rfl⟩

/-! ## The two remembered-set limits -/

/-- C13: the sparse-region-entries check encodes the rule of the region-entries
check.  For every candidate value and every `verbose`, in two states that agree
on `UseG1GC` and in which the command-line bit of `G1RSetSparseRegionEntries`
equals the command-line bit of `G1RSetRegionEntries`, the two functions return
the same verdict, and they reject exactly when the collector is active, the flag
is given on the command line and the value is below 1. -/
theorem sparse_region_entries_same_rule (vmSparse vmRegion : VM)
    (hG1 : vmSparse.globals.UseG1GC = vmRegion.globals.UseG1GC)
    (hbit : FLAG_IS_CMDLINE vmSparse.globals.G1RSetSparseRegionEntries =
      FLAG_IS_CMDLINE vmRegion.globals.G1RSetRegionEntries)
    (value : Int) (verboseSparse verboseRegion : Bool) :
    (G1RSetSparseRegionEntriesConstraintFunc value verboseSparse vmSparse).1 =
      (G1RSetRegionEntriesConstraintFunc value verboseRegion vmRegion).1 ∧
    ((G1RSetSparseRegionEntriesConstraintFunc value verboseSparse vmSparse).1 =
        Flag.Error.VIOLATES_CONSTRAINT ↔
      vmSparse.globals.UseG1GC = true ∧
        FLAG_IS_CMDLINE vmSparse.globals.G1RSetSparseRegionEntries = true ∧ value < 1) := by
  cases hg : vmRegion.globals.UseG1GC <;>
    cases hc : FLAG_IS_CMDLINE vmRegion.globals.G1RSetRegionEntries <;>
    by_cases hv : value < 1 <;>
    simp [G1RSetSparseRegionEntriesConstraintFunc, G1RSetRegionEntriesConstraintFunc,
      hG1, hbit, hg, hc, hv]

/-- Witness for C13: with both limits given on the command line, a value of 0
is rejected by the sparse check as it is by the region check. -/
theorem sparse_region_entries_same_rule_witness :
    regionVM.globals.UseG1GC = regionVM.globals.UseG1GC ∧
    FLAG_IS_CMDLINE regionVM.globals.G1RSetSparseRegionEntries =
      FLAG_IS_CMDLINE regionVM.globals.G1RSetRegionEntries ∧
    (G1RSetSparseRegionEntriesConstraintFunc 0 true regionVM).1 =
      (G1RSetRegionEntriesConstraintFunc 0 true regionVM).1 ∧
    (G1RSetSparseRegionEntriesConstraintFunc 0 true regionVM).1 =
      Flag.Error.VIOLATES_CONSTRAINT :=
  ⟨rfl, rfl, (sparse_region_entries_same_rule regionVM regionVM rfl rfl 0 true true).1,
    (sparse_region_entries_same_rule regionVM regionVM rfl rfl 0 true true).2.2
      ⟨rfl, rfl, by decide⟩⟩

/-- C15: the sentinel 0 is exempted through the command-line bit and not
through its value.  With the collector active, `G1RSetRegionEntries`,
`G1RSetSparseRegionEntries` and, when the minimum region size is positive,
`G1HeapRegionSize` accept the candidate 0 exactly when the flag is not given on
the command line. -/
theorem zero_accepted_iff_not_cmdline (vm : VM) (hG1 : vm.globals.UseG1GC = true)
    (verbose : Bool) :
    ((G1RSetRegionEntriesConstraintFunc 0 verbose vm).1 = Flag.Error.SUCCESS ↔
      FLAG_IS_CMDLINE vm.globals.G1RSetRegionEntries = false) ∧
    ((G1RSetSparseRegionEntriesConstraintFunc 0 verbose vm).1 = Flag.Error.SUCCESS ↔
      FLAG_IS_CMDLINE vm.globals.G1RSetSparseRegionEntries = false) ∧
    (0 < vm.globals.bounds.min_size →
      ((G1HeapRegionSizeConstraintFunc 0 verbose vm).1 = Flag.Error.SUCCESS ↔
        FLAG_IS_CMDLINE vm.globals.G1HeapRegionSize = false)) := by
  refine ⟨?_, ?_, fun hmin => ?_⟩
  · cases hc : FLAG_IS_CMDLINE vm.globals.G1RSetRegionEntries <;>
      simp [G1RSetRegionEntriesConstraintFunc, hG1, hc]
  · cases hc : FLAG_IS_CMDLINE vm.globals.G1RSetSparseRegionEntries <;>
      simp [G1RSetSparseRegionEntriesConstraintFunc, hG1, hc]
  · cases hc : FLAG_IS_CMDLINE vm.globals.G1HeapRegionSize <;>
      simp [G1HeapRegionSizeConstraintFunc, hG1, hc, hmin]

/-- Witness for C15: at their defaults the three flags hold 0 and are accepted;
the minimum region size of the sample is 1 MiB. -/
theorem zero_accepted_iff_not_cmdline_witness :
    sampleVM.globals.UseG1GC = true ∧
    0 < sampleVM.globals.bounds.min_size ∧
    (G1RSetRegionEntriesConstraintFunc 0 true sampleVM).1 = Flag.Error.SUCCESS ∧
    (G1RSetSparseRegionEntriesConstraintFunc 0 true sampleVM).1 = Flag.Error.SUCCESS ∧
    (G1HeapRegionSizeConstraintFunc 0 true sampleVM).1 = Flag.Error.SUCCESS :=
  ⟨rfl, by decide,
    (zero_accepted_iff_not_cmdline sampleVM rfl true).1.2 rfl,
    (zero_accepted_iff_not_cmdline sampleVM rfl true).2.1.2 rfl,
    ((zero_accepted_iff_not_cmdline sampleVM rfl true).2.2 (by decide)).2 rfl⟩

/-! ## Order of the sub-checks of the pause interval -/

/-- C14: the interval check stops at the first violated sub-condition, in the
order "value < 1", "`MaxGCPauseMillis` at its default", "value at most
`MaxGCPauseMillis`", each with its own line.  With the collector active, the
interval given on the command line and `verbose` true: the value 0 always
writes the "greater than or equal to 1" line, whatever the origin and value of
`MaxGCPauseMillis`; a value of at least 1 with `MaxGCPauseMillis` at its default
always writes the "cannot be set without setting MaxGCPauseMillis" line, also
when the value is at most `MaxGCPauseMillis`; and the "greater than
MaxGCPauseMillis" line is written exactly when the value is at least 1,
`MaxGCPauseMillis` is not at its default and the value is at most
`MaxGCPauseMillis`.  The three lines are pairwise different. -/
theorem pause_interval_short_circuit (vm : VM) (hG1 : vm.globals.UseG1GC = true)
    (hcmd : FLAG_IS_CMDLINE vm.globals.GCPauseIntervalMillis = true) (value : Nat) :
    (GCPauseIntervalMillisConstraintFuncG1 0 true vm).2.error_stream =
      vm.error_stream ++ ["GCPauseIntervalMillis (0) must be greater than or equal to 1\n"] ∧
    (1 ≤ value → FLAG_IS_DEFAULT vm.globals.MaxGCPauseMillis = true →
      (GCPauseIntervalMillisConstraintFuncG1 value true vm).2.error_stream =
        vm.error_stream ++
          ["GCPauseIntervalMillis cannot be set without setting MaxGCPauseMillis\n"]) ∧
    ((GCPauseIntervalMillisConstraintFuncG1 value true vm).2.error_stream =
        vm.error_stream ++
          ["GCPauseIntervalMillis (" ++ toString value ++ ") must be " ++
            "greater than MaxGCPauseMillis (" ++
            toString vm.globals.MaxGCPauseMillis.value ++ ")\n"] ↔
      1 ≤ value ∧ FLAG_IS_DEFAULT vm.globals.MaxGCPauseMillis = false ∧
        value ≤ vm.globals.MaxGCPauseMillis.value) ∧
    ("GCPauseIntervalMillis (" ++ toString value ++ ") must be " ++
        "greater than or equal to 1\n" ≠
      "GCPauseIntervalMillis cannot be set " ++ "without setting MaxGCPauseMillis\n" ∧
     "GCPauseIntervalMillis cannot be set " ++ "without setting MaxGCPauseMillis\n" ≠
      "GCPauseIntervalMillis (" ++ toString value ++ ") must be " ++
        "greater than MaxGCPauseMillis (" ++
        toString vm.globals.MaxGCPauseMillis.value ++ ")\n" ∧
     "GCPauseIntervalMillis (" ++ toString value ++ ") must be " ++
        "greater than or equal to 1\n" ≠
      "GCPauseIntervalMillis (" ++ toString value ++ ") must be " ++
        "greater than MaxGCPauseMillis (" ++
        toString vm.globals.MaxGCPauseMillis.value ++ ")\n") := by
  have h12 : "GCPauseIntervalMillis (" ++ toString value ++ ") must be " ++
        "greater than or equal to 1\n" ≠
      "GCPauseIntervalMillis cannot be set " ++ "without setting MaxGCPauseMillis\n" := by
    intro h
    have hd := congrArg String.data h
    simp [String.data_append] at hd
  have h23 : "GCPauseIntervalMillis cannot be set " ++ "without setting MaxGCPauseMillis\n" ≠
      "GCPauseIntervalMillis (" ++ toString value ++ ") must be " ++
        "greater than MaxGCPauseMillis (" ++
        toString vm.globals.MaxGCPauseMillis.value ++ ")\n" := by
    intro h
    have hd := congrArg String.data h
    simp [String.data_append] at hd
  have h13 : "GCPauseIntervalMillis (" ++ toString value ++ ") must be " ++
        "greater than or equal to 1\n" ≠
      "GCPauseIntervalMillis (" ++ toString value ++ ") must be " ++
        "greater than MaxGCPauseMillis (" ++
        toString vm.globals.MaxGCPauseMillis.value ++ ")\n" := by
    intro h
    have hd := congrArg String.data h
    simp [String.data_append] at hd
  refine ⟨?_, fun h1 hdef => ?_, ?_, h12, h23, h13⟩
  · simp [GCPauseIntervalMillisConstraintFuncG1, CommandLineError.print, hG1, hcmd]
    decide
  · have h1' : ¬ value < 1 := by omega
    simp [GCPauseIntervalMillisConstraintFuncG1, CommandLineError.print, hG1, hcmd, hdef, h1']
  · by_cases h1 : value < 1
    · have hne : ¬ 1 ≤ value := by omega
      simp only [GCPauseIntervalMillisConstraintFuncG1, CommandLineError.print, hG1, hcmd, h1,
        if_true, hne, false_and, iff_false]
      intro h
      exact h13 (by simpa using h)
    · cases hdef : FLAG_IS_DEFAULT vm.globals.MaxGCPauseMillis
      · by_cases h2 : value ≤ vm.globals.MaxGCPauseMillis.value
        · have h1' : 1 ≤ value := by omega
          simp [GCPauseIntervalMillisConstraintFuncG1, CommandLineError.print, hG1, hcmd,
            hdef, h1, h2, h1']
        · simp [GCPauseIntervalMillisConstraintFuncG1, CommandLineError.print, hG1, hcmd,
            hdef, h1, h2]
      · simp only [GCPauseIntervalMillisConstraintFuncG1, CommandLineError.print, hG1, hcmd,
          h1, hdef, if_true, if_false, Bool.true_eq_false, false_and, and_false, iff_false]
        intro h
        exact h23 (by simpa using h)

/-- Witness for C14: an interval of 100 ms given on the command line while the
pause goal is at its default of 200 ms writes the "cannot be set" line, although
100 is also at most 200. -/
theorem pause_interval_short_circuit_witness :
    intervalOnlyVM.globals.UseG1GC = true ∧
    FLAG_IS_CMDLINE intervalOnlyVM.globals.GCPauseIntervalMillis = true ∧
    1 ≤ 100 ∧ FLAG_IS_DEFAULT intervalOnlyVM.globals.MaxGCPauseMillis = true ∧
    100 ≤ intervalOnlyVM.globals.MaxGCPauseMillis.value ∧
    (GCPauseIntervalMillisConstraintFuncG1 100 true intervalOnlyVM).2.error_stream =
      intervalOnlyVM.error_stream ++
        ["GCPauseIntervalMillis cannot be set without setting MaxGCPauseMillis\n"] :=
  ⟨rfl, rfl, by decide, rfl, by decide,
    (pause_interval_short_circuit intervalOnlyVM rfl rfl 100).2.1 (by decide) rfl⟩

/-! ## Agreement of the two pause checks -/

/-- C16: the two pause checks agree on the pair.  With the collector active,
`MaxGCPauseMillis` given on the command line in the state of the pause-goal
check, and `GCPauseIntervalMillis` given on the command line with
`MaxGCPauseMillis` not at its default in the state of the interval check, for
all unsigned `p` and `i` the pause-goal check of `p` against a current interval
`i` accepts exactly when the interval check of `i` against a current pause goal
`p` accepts, and both accept exactly when `p < i`.  The interval check rejects
exactly when `i ≤ p`, the condition of its last sub-check alone, so the
sub-check "value < 1" never changes the verdict here. -/
theorem pause_checks_agree (vmMax vmInterval : VM)
    (hMaxG1 : vmMax.globals.UseG1GC = true)
    (hIntervalG1 : vmInterval.globals.UseG1GC = true)
    (hMaxCmd : FLAG_IS_CMDLINE vmMax.globals.MaxGCPauseMillis = true)
    (hIntervalCmd : FLAG_IS_CMDLINE vmInterval.globals.GCPauseIntervalMillis = true)
    (hNotDefault : FLAG_IS_DEFAULT vmInterval.globals.MaxGCPauseMillis = false)
    (p i : Nat)
    (hi : vmMax.globals.GCPauseIntervalMillis.value = i)
    (hp : vmInterval.globals.MaxGCPauseMillis.value = p)
    (verboseMax verboseInterval : Bool) :
    ((MaxGCPauseMillisConstraintFuncG1 p verboseMax vmMax).1 = Flag.Error.SUCCESS ↔
      (GCPauseIntervalMillisConstraintFuncG1 i verboseInterval vmInterval).1 =
        Flag.Error.SUCCESS) ∧
    ((MaxGCPauseMillisConstraintFuncG1 p verboseMax vmMax).1 = Flag.Error.SUCCESS ↔ p < i) ∧
    ((GCPauseIntervalMillisConstraintFuncG1 i verboseInterval vmInterval).1 =
      Flag.Error.SUCCESS ↔ p < i) ∧
    ((GCPauseIntervalMillisConstraintFuncG1 i verboseInterval vmInterval).1 =
      Flag.Error.VIOLATES_CONSTRAINT ↔ i ≤ p) := by
  have hmax : (MaxGCPauseMillisConstraintFuncG1 p verboseMax vmMax).1 = Flag.Error.SUCCESS ↔
      p < i := by
    by_cases h : i ≤ p
    · have hlt : ¬ p < i := by omega
      simp [MaxGCPauseMillisConstraintFuncG1, hMaxG1, hMaxCmd, hi, h, hlt]
    · have hlt : p < i := by omega
      simp [MaxGCPauseMillisConstraintFuncG1, hMaxG1, hMaxCmd, hi, h, hlt]
  have hint : (GCPauseIntervalMillisConstraintFuncG1 i verboseInterval vmInterval).1 =
      Flag.Error.SUCCESS ↔ p < i := by
    by_cases h1 : i < 1 <;> by_cases h2 : i ≤ p <;>
      simp [GCPauseIntervalMillisConstraintFuncG1, hIntervalG1, hIntervalCmd, hNotDefault,
        hp, h1, h2]
    all_goals omega
  have hrej : (GCPauseIntervalMillisConstraintFuncG1 i verboseInterval vmInterval).1 =
      Flag.Error.VIOLATES_CONSTRAINT ↔ i ≤ p := by
    by_cases h1 : i < 1 <;> by_cases h2 : i ≤ p <;>
      simp [GCPauseIntervalMillisConstraintFuncG1, hIntervalG1, hIntervalCmd, hNotDefault,
        hp, h1, h2]
    all_goals omega
  exact ⟨hmax.trans hint.symm, hmax, hint, hrej⟩

/-- Witness for C16: with both pause flags given on the command line, a pause
goal of 200 ms and an interval of 500 ms are accepted by both checks. -/
theorem pause_checks_agree_witness :
    pauseVM.globals.UseG1GC = true ∧
    FLAG_IS_CMDLINE pauseVM.globals.MaxGCPauseMillis = true ∧
    FLAG_IS_CMDLINE pauseVM.globals.GCPauseIntervalMillis = true ∧
    FLAG_IS_DEFAULT pauseVM.globals.MaxGCPauseMillis = false ∧
    pauseVM.globals.GCPauseIntervalMillis.value = 500 ∧
    pauseVM.globals.MaxGCPauseMillis.value = 200 ∧
    (MaxGCPauseMillisConstraintFuncG1 200 true pauseVM).1 = Flag.Error.SUCCESS ∧
    (GCPauseIntervalMillisConstraintFuncG1 500 true pauseVM).1 = Flag.Error.SUCCESS :=
  ⟨rfl, rfl, rfl, rfl, rfl, rfl,
    (pause_checks_agree pauseVM pauseVM rfl rfl rfl rfl rfl 200 500 rfl rfl
      true true).2.1.2 (by decide),
    (pause_checks_agree pauseVM pauseVM rfl rfl rfl rfl rfl 200 500 rfl rfl
      true true).2.2.1.2 (by decide)⟩

/-! ## The verdict does not depend on `verbose` -/

/-- C17: the verdict of each of the eight functions is the same with `verbose`
true and with `verbose` false, for every candidate value, every state and
either build. -/
theorem verdict_independent_of_verbose (vm : VM) (i : Int) (n : Nat) (LP64 : Bool) :
    (G1RSetRegionEntriesConstraintFunc i true vm).1 =
      (G1RSetRegionEntriesConstraintFunc i false vm).1 ∧
    (G1RSetSparseRegionEntriesConstraintFunc i true vm).1 =
      (G1RSetSparseRegionEntriesConstraintFunc i false vm).1 ∧
    (G1HeapRegionSizeConstraintFunc n true vm).1 =
      (G1HeapRegionSizeConstraintFunc n false vm).1 ∧
    (G1NewSizePercentConstraintFunc n true vm).1 =
      (G1NewSizePercentConstraintFunc n false vm).1 ∧
    (G1MaxNewSizePercentConstraintFunc n true vm).1 =
      (G1MaxNewSizePercentConstraintFunc n false vm).1 ∧
    (MaxGCPauseMillisConstraintFuncG1 n true vm).1 =
      (MaxGCPauseMillisConstraintFuncG1 n false vm).1 ∧
    (GCPauseIntervalMillisConstraintFuncG1 n true vm).1 =
      (GCPauseIntervalMillisConstraintFuncG1 n false vm).1 ∧
    (NewSizeConstraintFuncG1 LP64 n true vm).1 =
      (NewSizeConstraintFuncG1 LP64 n false vm).1 := by
  refine ⟨?_, ?_, ?_, ?_, ?_, ?_, ?_, ?_⟩
  · unfold G1RSetRegionEntriesConstraintFunc
    split_ifs <;> rfl
  · unfold G1RSetSparseRegionEntriesConstraintFunc
    split_ifs <;> rfl
  · unfold G1HeapRegionSizeConstraintFunc
    split_ifs <;> rfl
  · unfold G1NewSizePercentConstraintFunc
    split_ifs <;> rfl
  · unfold G1MaxNewSizePercentConstraintFunc
    split_ifs <;> rfl
  · unfold MaxGCPauseMillisConstraintFuncG1
    split_ifs <;> rfl
  · unfold GCPauseIntervalMillisConstraintFuncG1
    split_ifs <;> rfl
  · unfold NewSizeConstraintFuncG1
    split_ifs <;> rfl

/-! ## The pause goal against an interval of 0 -/

/-- C18: the comparison of the pause-goal check is unsigned and not strict.
With the collector active and `MaxGCPauseMillis` given on the command line, the
check rejects every candidate, 0 included, while the current
`GCPauseIntervalMillis` is 0, and it rejects the largest `uintx` value for
every current `GCPauseIntervalMillis` that a `uintx` can hold, on either
build. -/
theorem max_pause_rejected_while_interval_zero (vm : VM)
    (hG1 : vm.globals.UseG1GC = true)
    (hcmd : FLAG_IS_CMDLINE vm.globals.MaxGCPauseMillis = true) (verbose : Bool) :
    (vm.globals.GCPauseIntervalMillis.value = 0 →
      ∀ value : Nat,
        (MaxGCPauseMillisConstraintFuncG1 value verbose vm).1 =
          Flag.Error.VIOLATES_CONSTRAINT) ∧
    (∀ LP64 : Bool, vm.globals.GCPauseIntervalMillis.value ≤ max_uintx LP64 →
      (MaxGCPauseMillisConstraintFuncG1 (max_uintx LP64) verbose vm).1 =
        Flag.Error.VIOLATES_CONSTRAINT) := by
  refine ⟨fun h0 value => ?_, fun LP64 hfit => ?_⟩
  · simp [MaxGCPauseMillisConstraintFuncG1, hG1, hcmd, h0]
  · simp [MaxGCPauseMillisConstraintFuncG1, hG1, hcmd, hfit]

/-- Witness for C18: a pause goal of 0 given on the command line is rejected
while the interval is still 0, and so is the largest 64-bit value. -/
theorem max_pause_rejected_while_interval_zero_witness :
    zeroIntervalVM.globals.UseG1GC = true ∧
    FLAG_IS_CMDLINE zeroIntervalVM.globals.MaxGCPauseMillis = true ∧
    zeroIntervalVM.globals.GCPauseIntervalMillis.value = 0 ∧
    (MaxGCPauseMillisConstraintFuncG1 0 true zeroIntervalVM).1 =
      Flag.Error.VIOLATES_CONSTRAINT ∧
    (MaxGCPauseMillisConstraintFuncG1 (max_uintx true) true zeroIntervalVM).1 =
      Flag.Error.VIOLATES_CONSTRAINT :=
  ⟨rfl, rfl, rfl,
    (max_pause_rejected_while_interval_zero zeroIntervalVM rfl rfl true).1 rfl 0,
    (max_pause_rejected_while_interval_zero zeroIntervalVM rfl rfl true).2 true (by decide)⟩

end G1
